import Mathlib

/-!
Verification development for the Substack proxy service (`src/app.py`).

The service is a single-endpoint HTTP proxy.  `get_post` canonicalizes the
requested URL by following redirects, then tries the structured
`substack_api` extraction path, then falls back to a generic fetch plus the
heuristic extractor `_readability_extract`, hashing extracted text with
SHA-256.

External collaborators (the httpx transport, the `substack_api` library and
the BeautifulSoup HTML parser) are opaque capabilities; they are modelled as
an `Oracle` record of functions so that theorems quantify over all of their
possible behaviours.  Pure helpers (the heuristic extractor over a parsed
tree, SHA-256, CPython's `urlparse(...).hostname`) are translated directly.
-/

namespace Substack

mutual

/-- A node of the parsed HTML tree produced by the opaque BeautifulSoup
parsing capability: either a `NavigableString` or a `Tag` with a name,
attributes, and children in document order. -/
inductive Node where
  | text (s : String)
  | elem (tag : String) (attrs : List (String × String)) (children : Forest)

/-- A sequence of sibling nodes in document order. -/
inductive Forest where
  | nil
  | cons (n : Node) (rest : Forest)

end

/-- Build a forest from a list of nodes. -/
def Forest.ofList : List Node → Forest
  | [] => .nil
  | n :: rest => .cons n (Forest.ofList rest)

/-- First element with the given tag name in a forest, in pre-order
document order: this is BeautifulSoup's `find(name)` over descendants. -/
def findList (tag : String) : Forest → Option Node
  | .nil => none
  | .cons (.text _) rest => findList tag rest
  | .cons (.elem t a c) rest =>
    if t = tag then some (.elem t a c)
    else
      match findList tag c with
      | some x => some x
      | none => findList tag rest

/-- Children of a node (empty for a string node). -/
def Node.children : Node → Forest
  | .text _ => .nil
  | .elem _ _ c => c

/-- BeautifulSoup `node.find(tag)`: first matching element among the strict
descendants of `node`, in document order. -/
def Node.find (tag : String) (n : Node) : Option Node :=
  findList tag n.children

/-- BeautifulSoup `.string`: the single `NavigableString` child if the tag
has exactly one child (recursing through a unique tag child), else `None`. -/
def Node.string : Node → Option String
  | .text s => some s
  | .elem _ _ (.cons c .nil) => c.string
  | .elem _ _ _ => none

/-- All `NavigableString` descendants of a forest, in document order. -/
def stringsList : Forest → List String
  | .nil => []
  | .cons (.text s) rest => s :: stringsList rest
  | .cons (.elem _ _ c) rest => stringsList c ++ stringsList rest

/-- ASCII whitespace as recognized by Python `str.strip()`. -/
def isSpaceChar (c : Char) : Bool :=
  c = ' ' || c = '\t' || c = '\n' || c = '\r' || c = '\x0b' || c = '\x0c'

/-- Python `str.strip()`: remove leading and trailing whitespace. -/
def pyStrip (s : String) : String :=
  String.mk (((s.data.dropWhile isSpaceChar).reverse.dropWhile isSpaceChar).reverse)

/-- BeautifulSoup `node.get_text(sep, strip=True)`: every descendant string
stripped, empties dropped, joined with the separator.  The source always
passes separator `"\n"` and `strip=True`. -/
def Node.get_text (n : Node) : String :=
  String.intercalate "\n" (((stringsList n.children).map pyStrip).filter (· ≠ ""))

/-- BeautifulSoup `tag.get(key)`: attribute lookup returning `None` when the
attribute is missing. -/
def Node.get (key : String) (n : Node) : Option String :=
  match n with
  | .text _ => none
  | .elem _ attrs _ => attrs.lookup key

/-- Does some element with the given tag occur anywhere in the forest? -/
def forestHas (tag : String) : Forest → Bool
  | .nil => false
  | .cons (.text _) rest => forestHas tag rest
  | .cons (.elem t _ c) rest => (t == tag) || forestHas tag c || forestHas tag rest

/-- Does some element with the given tag occur among the strict descendants
of this node? -/
def Node.hasTag (tag : String) (n : Node) : Bool :=
  forestHas tag n.children

/-- The body of `_readability_extract` (`src/app.py` lines 38-45) acting on
the already-parsed soup.  Returns `(text, title, hero)` exactly as the Python
returns `text, title, hero`.  Python truthiness is preserved: an empty
`title.string` or an empty `src` attribute counts as absent. -/
def extractSoup (soup : Node) : String × Option String × Option String :=
  let title :=
    match soup.find "title" with
    | some t =>
      match t.string with
      | some s => if s = "" then none else some (pyStrip s)
      | none => none
    | none => none
  let article :=
    match soup.find "article" with
    | some a => some a
    | none =>
      match soup.find "main" with
      | some m => some m
      | none => soup.find "body"
  let img :=
    match article with
    | some a =>
      match a.find "img" with
      | some i => some i
      | none => soup.find "img"
    | none => soup.find "img"
  let hero :=
    match img with
    | some i =>
      match i.get "src" with
      | some s => if s = "" then none else some s
      | none => none
    | none => none
  let text :=
    match article with
    | some a => a.get_text
    | none => soup.get_text
  (text, title, hero)

/-- `_readability_extract(html)`: parse with the opaque parser capability,
then extract. -/
def readability_extract (parse : String → Node) (html : String) :
    String × Option String × Option String :=
  extractSoup (parse html)

/-! SHA-256, translated from the standard algorithm used by Python's
`hashlib.sha256`, over `Nat` with explicit reduction modulo `2 ^ 32`. -/

/-- UTF-8 encoding of one Unicode scalar value, as `Python str.encode`. -/
def utf8EncodeCharNat (c : Char) : List Nat :=
  let v := c.toNat
  if v < 128 then [v]
  else if v < 2048 then [192 + v / 64, 128 + v % 64]
  else if v < 65536 then [224 + v / 4096, 128 + v / 64 % 64, 128 + v % 64]
  else [240 + v / 262144, 128 + v / 4096 % 64, 128 + v / 64 % 64, 128 + v % 64]

/-- `text.encode("utf-8")` as a list of byte values. -/
def utf8Bytes (s : String) : List Nat :=
  (s.data.map utf8EncodeCharNat).flatten

/-- Right rotation of a 32-bit word represented as a `Nat` below `2 ^ 32`. -/
def rotr32 (n x : Nat) : Nat :=
  x / 2 ^ n + x % 2 ^ n * 2 ^ (32 - n)

def bsig0 (x : Nat) : Nat := rotr32 2 x ^^^ rotr32 13 x ^^^ rotr32 22 x

def bsig1 (x : Nat) : Nat := rotr32 6 x ^^^ rotr32 11 x ^^^ rotr32 25 x

def ssig0 (x : Nat) : Nat := rotr32 7 x ^^^ rotr32 18 x ^^^ x / 2 ^ 3

def ssig1 (x : Nat) : Nat := rotr32 17 x ^^^ rotr32 19 x ^^^ x / 2 ^ 10

def chF (e f g : Nat) : Nat := (e &&& f) ^^^ ((4294967295 ^^^ e) &&& g)

def majF (a b c : Nat) : Nat := (a &&& b) ^^^ (a &&& c) ^^^ (b &&& c)

/-- The 64 SHA-256 round constants, written in decimal. -/
def shaK : List Nat :=
  [1116352408, 1899447441, 3049323471, 3921009573, 961987163, 1508970993,
   2453635748, 2870763221, 3624381080, 310598401, 607225278, 1426881987,
   1925078388, 2162078206, 2614888103, 3248222580, 3835390401, 4022224774,
   264347078, 604807628, 770255983, 1249150122, 1555081692, 1996064986,
   2554220882, 2821834349, 2952996808, 3210313671, 3336571891, 3584528711,
   113926993, 338241895, 666307205, 773529912, 1294757372, 1396182291,
   1695183700, 1986661051, 2177026350, 2456956037, 2730485921, 2820302411,
   3259730800, 3345764771, 3516065817, 3600352804, 4094571909, 275423344,
   430227734, 506948616, 659060556, 883997877, 958139571, 1322822218,
   1537002063, 1747873779, 1955562222, 2024104815, 2227730452, 2361852424,
   2428436474, 2756734187, 3204031479, 3329325298]

/-- The SHA-256 initial hash value, written in decimal. -/
def shaH0 : List Nat :=
  [1779033703, 3144134277, 1013904242, 2773480762, 1359893119, 2600822924,
   528734635, 1541459225]

/-- Big-endian byte expansion of a number into `k` bytes. -/
def beBytes : Nat → Nat → List Nat
  | 0, _ => []
  | k + 1, n => beBytes k (n / 256) ++ [n % 256]

/-- SHA-256 message padding: a `0x80` byte, zeros up to 56 mod 64, then the
bit length as a big-endian 64-bit integer. -/
def sha256pad (m : List Nat) : List Nat :=
  m ++ [128] ++ List.replicate ((119 - m.length % 64) % 64) 0 ++ beBytes 8 (8 * m.length)

/-- Pack bytes into 32-bit big-endian words. -/
def toWords : List Nat → List Nat
  | b0 :: b1 :: b2 :: b3 :: rest =>
    (((b0 * 256 + b1) * 256 + b2) * 256 + b3) :: toWords rest
  | _ => []

/-- Extend the 16 block words to the 64-entry message schedule. -/
def extendLoop : Nat → Array Nat → Array Nat
  | 0, w => w
  | k + 1, w =>
    let t := w.size
    extendLoop k (w.push ((ssig1 (w.getD (t - 2) 0) + w.getD (t - 7) 0 +
      ssig0 (w.getD (t - 15) 0) + w.getD (t - 16) 0) % 2 ^ 32))

/-- One SHA-256 round on the eight-word working state. -/
def roundStep (wt kt : Nat) : List Nat → List Nat
  | [a, b, c, d, e, f, g, h] =>
    let t1 := (h + bsig1 e + chF e f g + kt + wt) % 2 ^ 32
    let t2 := (bsig0 a + majF a b c) % 2 ^ 32
    [(t1 + t2) % 2 ^ 32, a, b, c, (d + t1) % 2 ^ 32, e, f, g]
  | s => s

/-- Run the 64 rounds over the schedule and the round constants. -/
def roundsLoop : List Nat → List Nat → List Nat → List Nat
  | [], _, s => s
  | _, [], s => s
  | wt :: ws, kt :: ks, s => roundsLoop ws ks (roundStep wt kt s)

/-- Compress one 64-byte block into the running hash value. -/
def compressBlock (h : List Nat) (block : List Nat) : List Nat :=
  let w := (extendLoop 48 (toWords block).toArray).toList
  let s := roundsLoop w shaK h
  List.zipWith (fun x y => (x + y) % 2 ^ 32) h s

/-- Fold the compression over all 64-byte blocks; the fuel is the padded
message length, an upper bound on the number of blocks. -/
def blocksLoop : Nat → List Nat → List Nat → List Nat
  | 0, h, _ => h
  | _ + 1, h, [] => h
  | fuel + 1, h, m => blocksLoop fuel (compressBlock h (m.take 64)) (m.drop 64)

/-- Lowercase hexadecimal digit. -/
def hexDigit (n : Nat) : Char :=
  "0123456789abcdef".toList.getD n '0'

/-- Eight-hex-digit rendering of a 32-bit word. -/
def hex8 (n : Nat) : List Char :=
  ((List.range 8).reverse).map fun i => hexDigit (n / 16 ^ i % 16)

/-- `hashlib.sha256(s.encode("utf-8")).hexdigest()`. -/
def sha256hex (s : String) : String :=
  let m := sha256pad (utf8Bytes s)
  String.mk ((blocksLoop m.length shaH0 m).map hex8).flatten

/-! CPython `urllib.parse`: the parts of `urlsplit` and the `hostname`
property that `urlparse(str(r.url)).hostname` exercises. -/

/-- Characters allowed in a URL scheme after the initial letter. -/
def isSchemeChar (c : Char) : Bool :=
  c.isAlphanum || c = '+' || c = '-' || c = '.'

/-- Drop a leading `scheme:` when the prefix before the first colon is a
valid scheme (CPython `urlsplit`). -/
def afterScheme (l : List Char) : List Char :=
  let pre := l.takeWhile (· ≠ ':')
  if pre.length < l.length && 0 < pre.length &&
      (match pre with | c :: _ => c.isAlpha | [] => false) && pre.all isSchemeChar
  then l.drop (pre.length + 1)
  else l

/-- The network-location part: after a leading `//`, up to the first of
`/`, `?` or `#` (CPython `_splitnetloc`); empty when there is no `//`. -/
def netlocOf (l : List Char) : List Char :=
  match l with
  | '/' :: '/' :: rest => rest.takeWhile fun c => c ≠ '/' && c ≠ '?' && c ≠ '#'
  | _ => []

/-- Hostname characters of a netloc: strip userinfo at the last `@`, then
either the bracketed IPv6 literal or the part before the port colon
(CPython `_NetlocResultMixinBase.hostname`). -/
def hostnameChars (netloc : List Char) : List Char :=
  let hostinfo := (netloc.reverse.takeWhile (· ≠ '@')).reverse
  if hostinfo.contains '[' then
    ((hostinfo.dropWhile (· ≠ '[')).drop 1).takeWhile (· ≠ ']')
  else
    hostinfo.takeWhile (· ≠ ':')

/-- `urlparse(url).hostname`: lowercased host of the URL, `None` when the
URL has no host. -/
def urlparse_hostname (url : String) : Option String :=
  let host := hostnameChars (netlocOf (afterScheme url.toList))
  if host = [] then none else some (String.mk (host.map Char.toLower))

/-! The content-resolution endpoint `get_post` (`src/app.py` lines 47-105).
External effects are supplied by an `Oracle`. -/

/-- The response model `PostOut` (`src/app.py` lines 12-23). -/
structure PostOut where
  url : String
  canonical_url : Option String := none
  title : Option String := none
  author : Option String := none
  publication : Option String := none
  published_at : Option String := none
  hero_image : Option String := none
  html : Option String := none
  text : Option String := none
  sha256 : Option String := none
  source : String
deriving Repr, DecidableEq

/-- What `p.get_metadata()` returns: a dict read with `.get`, so every field
may be absent. -/
structure Metadata where
  canonical_url : Option String := none
  title : Option String := none
  author : Option String := none
  publication : Option String := none
  published_at : Option String := none
  hero_image : Option String := none
deriving Repr, DecidableEq

/-- The combined result of the structured path's provider calls:
`Post(final_url)`, `get_metadata()`, `get_content(as_html=True)` and
`get_content(as_html=False)`.  Any of them may raise; a raise from any is
one `.error` of the bundled oracle call. -/
structure StructuredResult where
  md : Metadata
  html : Option String := none
  text : Option String := none
deriving Repr, DecidableEq

/-- The opaque external collaborators of one request:
`canonGet url` is the canonicalization GET, returning `str(head.url)` (the
redirect-resolved final URL) or raising;
`structured final_url` bundles the `substack_api` calls, returning metadata
and content or raising;
`fallbackGet final_url` is the fallback GET with `raise_for_status()`
folded in, returning `(str(r.url), r.text)` — it succeeds exactly when the
fetch succeeds with a 2xx status (after redirects);
`parse` is the BeautifulSoup HTML parsing capability, which always produces
a tree. -/
structure Oracle where
  canonGet : String → Except String String
  structured : String → Except String StructuredResult
  fallbackGet : String → Except String (String × String)
  parse : String → Node

/-- Python `a or b` for an optional string `a`: `b` when `a` is `None` or
empty (falsy), else the string in `a`. -/
def pyOr (a : Option String) (b : String) : String :=
  match a with
  | some s => if s = "" then b else s
  | none => b

/-- The endpoint handler `get_post` (`src/app.py` lines 47-105).  `.error`
carries the `HTTPException` status code and detail string. -/
def get_post (o : Oracle) (url : String) : Except (Nat × String) PostOut :=
  match o.canonGet url with
  | .error e => .error (502, "URL normalize failed: " ++ e)
  | .ok final_url =>
    match o.structured final_url with
    | .ok sr =>
      let sha :=
        match sr.text with
        | some t => if t = "" then none else some (sha256hex t)
        | none => none
      .ok { url := final_url
            canonical_url := some (pyOr sr.md.canonical_url final_url)
            title := sr.md.title
            author := sr.md.author
            publication := sr.md.publication
            published_at := sr.md.published_at
            hero_image := sr.md.hero_image
            html := sr.html
            text := sr.text
            sha256 := sha
            source := "substack_api" }
    | .error e =>
      match o.fallbackGet final_url with
      | .ok (rurl, html) =>
        let ext := readability_extract o.parse html
        let text := ext.1
        let sha := if text = "" then none else some (sha256hex text)
        .ok { url := final_url
              canonical_url := some rurl
              title := ext.2.1
              author := none
              publication := urlparse_hostname rurl
              published_at := none
              hero_image := ext.2.2
              html := some html
              text := some text
              sha256 := sha
              source := "generic-fetch" }
      | .error e2 =>
        .error (502, "substack_api failed: " ++ e ++ "; fallback fetch failed: " ++ e2)

/-! Spec-side definitions for the heuristic extractor, worded after the
specification's fallback chains (section 4.3), to be compared with
`extractSoup`. -/

/-- Spec wording: the content region is the first of an `article` element,
else a `main` element, else the document body; `none` means the whole
document. -/
def specRegion (soup : Node) : Option Node :=
  match soup.find "article" with
  | some a => some a
  | none =>
    match soup.find "main" with
    | some m => some m
    | none => soup.find "body"

/-- Spec wording: the body text is the content region's text, or the whole
document's text when no region resolved. -/
def specRegionText (soup : Node) : String :=
  match specRegion soup with
  | some r => r.get_text
  | none => soup.get_text

/-- Spec wording: the first `img` element within the content region, else
the first `img` anywhere in the document. -/
def specHeroImg (soup : Node) : Option Node :=
  match specRegion soup with
  | some r =>
    match r.find "img" with
    | some i => some i
    | none => soup.find "img"
  | none => soup.find "img"

/-- Spec wording: the hero image is that element's `src` attribute, absent
when there is no such element or no usable `src`. -/
def specHero (soup : Node) : Option String :=
  match specHeroImg soup with
  | some i =>
    match i.get "src" with
    | some s => if s = "" then none else some s
    | none => none
  | none => none

/-! Helper lemmas about `findList` and `forestHas`. -/

/-- A forest with no element of the given tag yields no find result. -/
theorem findList_eq_none (tag : String) :
    ∀ l : Forest, forestHas tag l = false → findList tag l = none
  | .nil, _ => rfl
  | .cons (.text _) rest, h => findList_eq_none tag rest h
  | .cons (.elem t a c) rest, h => by
    simp only [forestHas, Bool.or_eq_false_iff, beq_eq_false_iff_ne] at h
    obtain ⟨⟨ht, hc⟩, hr⟩ := h
    have hc' := findList_eq_none tag c hc
    have hr' := findList_eq_none tag rest hr
    simp [findList, ht, hc', hr']

/-- A node found inside a forest has its whole subtree inside that forest:
absence of a tag in the forest gives absence below the found node. -/
theorem forestHas_children_of_findList (t1 t2 : String) :
    ∀ (l : Forest) (b : Node), findList t1 l = some b →
      forestHas t2 l = false → forestHas t2 b.children = false
  | .nil, b, hf, _ => by simp [findList] at hf
  | .cons (.text _) rest, b, hf, h =>
    forestHas_children_of_findList t1 t2 rest b hf h
  | .cons (.elem t a c) rest, b, hf, h => by
    simp only [forestHas, Bool.or_eq_false_iff, beq_eq_false_iff_ne] at h
    obtain ⟨⟨ht, hc⟩, hr⟩ := h
    by_cases he : t = t1
    · simp only [findList, if_pos he] at hf
      cases hf
      simpa [Node.children] using hc
    · simp only [findList, if_neg he] at hf
      cases hfc : findList t1 c with
      | some x =>
        rw [hfc] at hf
        cases hf
        exact forestHas_children_of_findList t1 t2 c b hfc hc
      | none =>
        rw [hfc] at hf
        exact forestHas_children_of_findList t1 t2 rest b hf hr

/-! Run lemmas: the value of `get_post` on each of its four control paths. -/

/-- When the canonicalization GET raises, `get_post` returns the 502
normalize error. -/
theorem get_post_canon_error (o : Oracle) (url e : String)
    (hc : o.canonGet url = .error e) :
    get_post o url = .error (502, "URL normalize failed: " ++ e) := by
  unfold get_post
  rw [hc]

/-- When canonicalization and the structured path succeed, `get_post`
returns the structured response. -/
theorem get_post_structured_ok (o : Oracle) (url fu : String)
    (sr : StructuredResult)
    (hc : o.canonGet url = .ok fu) (hs : o.structured fu = .ok sr) :
    get_post o url = .ok
      { url := fu
        canonical_url := some (pyOr sr.md.canonical_url fu)
        title := sr.md.title
        author := sr.md.author
        publication := sr.md.publication
        published_at := sr.md.published_at
        hero_image := sr.md.hero_image
        html := sr.html
        text := sr.text
        sha256 :=
          match sr.text with
          | some t => if t = "" then none else some (sha256hex t)
          | none => none
        source := "substack_api" } := by
  simp only [get_post, hc, hs]

/-- When the structured path raises and the fallback fetch succeeds,
`get_post` returns the generic response. -/
theorem get_post_generic_ok (o : Oracle) (url fu e rurl html : String)
    (hc : o.canonGet url = .ok fu) (hs : o.structured fu = .error e)
    (hf : o.fallbackGet fu = .ok (rurl, html)) :
    get_post o url = .ok
      { url := fu
        canonical_url := some rurl
        title := (readability_extract o.parse html).2.1
        author := none
        publication := urlparse_hostname rurl
        published_at := none
        hero_image := (readability_extract o.parse html).2.2
        html := some html
        text := some (readability_extract o.parse html).1
        sha256 :=
          if (readability_extract o.parse html).1 = "" then none
          else some (sha256hex (readability_extract o.parse html).1)
        source := "generic-fetch" } := by
  simp only [get_post, hc, hs, hf]

/-- When the structured path raises and the fallback fetch also raises,
`get_post` returns the combined 502 error. -/
theorem get_post_both_fail (o : Oracle) (url fu e e2 : String)
    (hc : o.canonGet url = .ok fu) (hs : o.structured fu = .error e)
    (hf : o.fallbackGet fu = .error e2) :
    get_post o url =
      .error (502, "substack_api failed: " ++ e ++ "; fallback fetch failed: " ++ e2) := by
  simp only [get_post, hc, hs, hf]

/-! Claim C6. -/

/-- The tree BeautifulSoup's parser produces for the fixture input
`<html><head><title> T </title></head><body><article><img src="/h.png"><p>Hello</p></article></body></html>`. -/
def fixtureC6 : Node :=
  .elem "[document]" [] (Forest.ofList [
    .elem "html" [] (Forest.ofList [
      .elem "head" [] (Forest.ofList [
        .elem "title" [] (Forest.ofList [.text " T "])]),
      .elem "body" [] (Forest.ofList [
        .elem "article" [] (Forest.ofList [
          .elem "img" [("src", "/h.png")] .nil,
          .elem "p" [] (Forest.ofList [.text "Hello"])])])])])

/-- C6: the heuristic extractor's content region is the first of `article`,
`main`, body, else the whole document; its hero image is the first `img` in
the content region, else the first `img` anywhere, else absent; and on the
fixture input it yields text `"Hello"` (which contains `"Hello"`), title
`"T"` and hero `"/h.png"`. -/
theorem C6_heuristic_chain :
    (∀ soup : Node, (extractSoup soup).1 = specRegionText soup) ∧
    (∀ soup : Node, (extractSoup soup).2.2 = specHero soup) ∧
    extractSoup fixtureC6 = ("Hello", some "T", some "/h.png") ∧
    (∃ pre post : String, (extractSoup fixtureC6).1 = pre ++ "Hello" ++ post) := by
  exact ⟨fun _ => rfl, fun _ => rfl, by decide, ⟨"", "", by decide⟩⟩

/-! Claim C7. -/

/-- C7: on any parsed tree containing no `article`, no `main` and no `img`
anywhere, the (total) heuristic extractor yields a null hero image and its
text is the body's text, falling back to the whole document's text. -/
theorem C7_no_article_main_img (soup : Node)
    (ha : soup.hasTag "article" = false) (hm : soup.hasTag "main" = false)
    (hi : soup.hasTag "img" = false) :
    (extractSoup soup).2.2 = none ∧
    (extractSoup soup).1 =
      (match soup.find "body" with
       | some b => b.get_text
       | none => soup.get_text) := by
  have hfa : findList "article" soup.children = none := findList_eq_none _ _ ha
  have hfm : findList "main" soup.children = none := findList_eq_none _ _ hm
  have hfi : findList "img" soup.children = none := findList_eq_none _ _ hi
  cases hfb : soup.find "body" with
  | none =>
    have hfb' : findList "body" soup.children = none := hfb
    simp [extractSoup, Node.find, hfa, hfm, hfi, hfb']
  | some b =>
    have hbc : forestHas "img" b.children = false :=
      forestHas_children_of_findList "body" "img" soup.children b hfb hi
    have hbi : findList "img" b.children = none := findList_eq_none _ _ hbc
    have hfb' : findList "body" soup.children = some b := hfb
    simp [extractSoup, Node.find, hfa, hfm, hfi, hfb', hbi]

/-- A document with no `article`, `main` or `img`, used to instantiate C7. -/
def soupC7 : Node :=
  .elem "[document]" [] (Forest.ofList [
    .elem "html" [] (Forest.ofList [
      .elem "body" [] (Forest.ofList [.text " hi "])])])

/-- Witness for C7 at a concrete document. -/
theorem C7_no_article_main_img_witness :
    (extractSoup soupC7).2.2 = none ∧
    (extractSoup soupC7).1 =
      (match soupC7.find "body" with
       | some b => b.get_text
       | none => soupC7.get_text) :=
  C7_no_article_main_img soupC7 (by decide) (by decide) (by decide)

/-- An empty document, used as a parse result by the concrete oracles. -/
def emptyDoc : Node :=
  .elem "[document]" [] (Forest.ofList [
    .elem "html" [] (Forest.ofList [.elem "body" [] .nil])])

/-! Claim C1. -/

/-- An oracle whose structured path succeeds. -/
def oC1 : Oracle where
  canonGet := fun _ => .ok "https://final.example/p"
  structured := fun _ => .ok { md := {} }
  fallbackGet := fun _ => .error "unused"
  parse := fun _ => emptyDoc

/-- C1 fails as stated: on a structured-path success the response's source
field is the code's literal "substack_api", which is neither of the spec's
enum spellings "structured" and "generic". -/
theorem C1_counterexample :
    (oC1.structured "https://final.example/p").toOption.isSome = true ∧
    (get_post oC1 "https://caller.example/p").toOption.map PostOut.source =
      some "substack_api" ∧
    ¬ ("substack_api" = "structured" ∨ "substack_api" = "generic") := by
  decide

/-- C1 (amended): every successful response's source is one of the two tags
"substack_api" and "generic-fetch"; structured success yields the former
and generic-fallback success the latter. -/
theorem C1_source_enum (o : Oracle) (url : String) (p : PostOut)
    (h : get_post o url = .ok p) :
    (p.source = "substack_api" ∨ p.source = "generic-fetch") ∧
    (∀ (fu : String) (sr : StructuredResult),
      o.canonGet url = .ok fu → o.structured fu = .ok sr →
        p.source = "substack_api") ∧
    (∀ (fu e rurl html : String),
      o.canonGet url = .ok fu → o.structured fu = .error e →
        o.fallbackGet fu = .ok (rurl, html) → p.source = "generic-fetch") := by
  cases hc : o.canonGet url with
  | error e =>
    rw [get_post_canon_error o url e hc] at h
    cases h
  | ok fu =>
    cases hs : o.structured fu with
    | ok sr =>
      rw [get_post_structured_ok o url fu sr hc hs] at h
      cases h
      refine ⟨Or.inl rfl, fun _ _ _ _ => rfl, ?_⟩
      intro fu' e' rurl' html' hc' hs' _
      cases hc'
      rw [hs] at hs'
      cases hs'
    | error e =>
      cases hf : o.fallbackGet fu with
      | ok r =>
        obtain ⟨rurl, html⟩ := r
        rw [get_post_generic_ok o url fu e rurl html hc hs hf] at h
        cases h
        refine ⟨Or.inr rfl, ?_, fun _ _ _ _ _ _ _ => rfl⟩
        intro fu' sr' hc' hs'
        cases hc'
        rw [hs] at hs'
        cases hs'
      | error e2 =>
        rw [get_post_both_fail o url fu e e2 hc hs hf] at h
        cases h

/-- The response `oC1` produces. -/
def pC1 : PostOut :=
  { url := "https://final.example/p"
    canonical_url := some "https://final.example/p"
    source := "substack_api" }

/-- Witness for the amended C1 at a concrete oracle. -/
theorem C1_source_enum_witness :
    (pC1.source = "substack_api" ∨ pC1.source = "generic-fetch") ∧
    (∀ (fu : String) (sr : StructuredResult),
      oC1.canonGet "https://caller.example/p" = .ok fu →
        oC1.structured fu = .ok sr → pC1.source = "substack_api") ∧
    (∀ (fu e rurl html : String),
      oC1.canonGet "https://caller.example/p" = .ok fu →
        oC1.structured fu = .error e →
        oC1.fallbackGet fu = .ok (rurl, html) →
        pC1.source = "generic-fetch") :=
  C1_source_enum oC1 "https://caller.example/p" pC1 rfl

/-! Claim C2. -/

/-- C2: when the structured path raises and the fallback also fails, the
endpoint returns status 502 with a detail containing both causes as
substrings, and no response record is produced. -/
theorem C2_combined_failure (o : Oracle) (url fu e e2 : String)
    (hc : o.canonGet url = .ok fu) (hs : o.structured fu = .error e)
    (hf : o.fallbackGet fu = .error e2) :
    get_post o url =
      .error (502, "substack_api failed: " ++ e ++ "; fallback fetch failed: " ++ e2) ∧
    (∃ pre post : String,
      "substack_api failed: " ++ e ++ "; fallback fetch failed: " ++ e2 =
        pre ++ e ++ post) ∧
    (∃ pre post : String,
      "substack_api failed: " ++ e ++ "; fallback fetch failed: " ++ e2 =
        pre ++ e2 ++ post) := by
  refine ⟨get_post_both_fail o url fu e e2 hc hs hf,
    ⟨"substack_api failed: ", "; fallback fetch failed: " ++ e2, ?_⟩,
    ⟨"substack_api failed: " ++ e ++ "; fallback fetch failed: ", "", ?_⟩⟩
  · simp [String.append_assoc]
  · simp [String.append_assoc]

/-- An oracle where both extraction stages fail. -/
def oC2 : Oracle where
  canonGet := fun _ => .ok "https://final.example/p"
  structured := fun _ => .error "provider boom"
  fallbackGet := fun _ => .error "status 404"
  parse := fun _ => emptyDoc

/-- Witness for C2 at a concrete oracle. -/
theorem C2_combined_failure_witness :
    get_post oC2 "https://caller.example/p" =
      .error (502, "substack_api failed: " ++ "provider boom" ++
        "; fallback fetch failed: " ++ "status 404") ∧
    (∃ pre post : String,
      "substack_api failed: " ++ "provider boom" ++
        "; fallback fetch failed: " ++ "status 404" =
        pre ++ "provider boom" ++ post) ∧
    (∃ pre post : String,
      "substack_api failed: " ++ "provider boom" ++
        "; fallback fetch failed: " ++ "status 404" =
        pre ++ "status 404" ++ post) :=
  C2_combined_failure oC2 "https://caller.example/p" "https://final.example/p"
    "provider boom" "status 404" rfl rfl rfl

/-! Claim C3. -/

/-- C3: when the structured path raises and the fallback fetch succeeds
(2xx), the response has null author and published_at, the fetched URL's
hostname as publication, the fetched URL as canonical_url, and the generic
source tag. -/
theorem C3_generic_success (o : Oracle) (url fu e rurl html : String)
    (hc : o.canonGet url = .ok fu) (hs : o.structured fu = .error e)
    (hf : o.fallbackGet fu = .ok (rurl, html)) :
    ∃ p : PostOut, get_post o url = .ok p ∧
      p.author = none ∧ p.published_at = none ∧
      p.publication = urlparse_hostname rurl ∧
      p.canonical_url = some rurl ∧
      p.source = "generic-fetch" :=
  ⟨_, get_post_generic_ok o url fu e rurl html hc hs hf, rfl, rfl, rfl, rfl, rfl⟩

/-- An oracle where the structured path raises but the fallback succeeds. -/
def oC3 : Oracle where
  canonGet := fun _ => .ok "https://f.example/p"
  structured := fun _ => .error "provider boom"
  fallbackGet := fun _ => .ok ("https://host.example/post", "<html></html>")
  parse := fun _ => emptyDoc

/-- Witness for C3 at a concrete oracle. -/
theorem C3_generic_success_witness :
    ∃ p : PostOut, get_post oC3 "https://caller.example/p" = .ok p ∧
      p.author = none ∧ p.published_at = none ∧
      p.publication = urlparse_hostname "https://host.example/post" ∧
      p.canonical_url = some "https://host.example/post" ∧
      p.source = "generic-fetch" :=
  C3_generic_success oC3 "https://caller.example/p" "https://f.example/p"
    "provider boom" "https://host.example/post" "<html></html>" rfl rfl rfl

/-! Claim C4. -/

/-- C4: when the canonicalization GET raises, the request terminates with
the 502 normalize error, and the result does not depend on the structured
or fallback capabilities at all (neither is attempted). -/
theorem C4_canonicalize_fatal (o : Oracle) (url e : String)
    (hc : o.canonGet url = .error e) :
    get_post o url = .error (502, "URL normalize failed: " ++ e) ∧
    ∀ o' : Oracle, o'.canonGet = o.canonGet →
      get_post o' url = get_post o url := by
  refine ⟨get_post_canon_error o url e hc, ?_⟩
  intro o' hsame
  have hc' : o'.canonGet url = .error e := by rw [hsame]; exact hc
  rw [get_post_canon_error o' url e hc', get_post_canon_error o url e hc]

/-- An oracle whose canonicalization GET raises. -/
def oC4 : Oracle where
  canonGet := fun _ => .error "dns failure"
  structured := fun _ => .error "unused"
  fallbackGet := fun _ => .error "unused"
  parse := fun _ => emptyDoc

/-- Witness for C4 at a concrete oracle. -/
theorem C4_canonicalize_fatal_witness :
    get_post oC4 "nonsense" = .error (502, "URL normalize failed: " ++ "dns failure") ∧
    ∀ o' : Oracle, o'.canonGet = oC4.canonGet →
      get_post o' "nonsense" = get_post oC4 "nonsense" :=
  C4_canonicalize_fatal oC4 "nonsense" "dns failure" rfl

/-! Claim C5. -/

/-- An oracle whose structured path succeeds with metadata that carries no
author. -/
def oC5 : Oracle where
  canonGet := fun _ => .ok "https://final.example/p"
  structured := fun _ => .ok { md := {} }
  fallbackGet := fun _ => .error "unused"
  parse := fun _ => emptyDoc

/-- C5 fails as stated: the structured path can succeed while the provider
metadata has no author, and the response's author is then null. -/
theorem C5_counterexample :
    (oC5.structured "https://final.example/p").toOption.isSome = true ∧
    (get_post oC5 "https://caller.example/p").toOption.map PostOut.source =
      some "substack_api" ∧
    (get_post oC5 "https://caller.example/p").toOption.map PostOut.author =
      some none := by
  decide

/-- C5 (amended): when the structured path succeeds the response comes from
the structured path — the result does not depend on the fallback
capabilities — and its author is exactly the provider-supplied author,
which may be null. -/
theorem C5_structured_no_fallback (o : Oracle) (url fu : String)
    (sr : StructuredResult)
    (hc : o.canonGet url = .ok fu) (hs : o.structured fu = .ok sr) :
    (∃ p : PostOut, get_post o url = .ok p ∧ p.source = "substack_api" ∧
      p.author = sr.md.author) ∧
    ∀ o' : Oracle, o'.canonGet = o.canonGet → o'.structured = o.structured →
      get_post o' url = get_post o url := by
  refine ⟨⟨_, get_post_structured_ok o url fu sr hc hs, rfl, rfl⟩, ?_⟩
  intro o' h1 h2
  have hc' : o'.canonGet url = .ok fu := by rw [h1]; exact hc
  have hs' : o'.structured fu = .ok sr := by rw [h2]; exact hs
  rw [get_post_structured_ok o' url fu sr hc' hs',
      get_post_structured_ok o url fu sr hc hs]

/-- Witness for the amended C5 at a concrete oracle. -/
theorem C5_structured_no_fallback_witness :
    (∃ p : PostOut, get_post oC5 "https://caller.example/p" = .ok p ∧
      p.source = "substack_api" ∧
      p.author = ({ md := {} } : StructuredResult).md.author) ∧
    ∀ o' : Oracle, o'.canonGet = oC5.canonGet →
      o'.structured = oC5.structured →
      get_post o' "https://caller.example/p" =
        get_post oC5 "https://caller.example/p" :=
  C5_structured_no_fallback oC5 "https://caller.example/p"
    "https://final.example/p" { md := {} } rfl rfl

/-! Claim C8. -/

/-- An oracle whose fallback serves a page with no text at all. -/
def oC8 : Oracle where
  canonGet := fun _ => .ok "https://f.example/p"
  structured := fun _ => .error "provider boom"
  fallbackGet := fun _ => .ok ("https://h.example/", "<html><body></body></html>")
  parse := fun _ => emptyDoc

/-- C8 fails as stated: a generic response can carry present-but-empty text
(the empty string, not null) while its hash is absent, so the hash is not
present whenever text is present. -/
theorem C8_counterexample :
    (get_post oC8 "https://caller.example/p").toOption.map PostOut.text =
      some (some "") ∧
    (get_post oC8 "https://caller.example/p").toOption.map PostOut.sha256 =
      some none := by
  decide

/-- C8 (amended): on both paths the hash field is the SHA-256 hex digest of
the UTF-8 encoded text when text is present and non-empty, and absent when
text is absent or empty; the digest is a function of the text alone, and
distinct fixture texts give distinct digests. -/
theorem C8_hash_characterization (o : Oracle) (url : String) (p : PostOut)
    (h : get_post o url = .ok p) :
    (p.sha256 =
      match p.text with
      | some t => if t = "" then none else some (sha256hex t)
      | none => none) ∧
    sha256hex "Hello" ≠ sha256hex "Goodbye" := by
  refine ⟨?_, by decide⟩
  cases hc : o.canonGet url with
  | error e =>
    rw [get_post_canon_error o url e hc] at h
    cases h
  | ok fu =>
    cases hs : o.structured fu with
    | ok sr =>
      rw [get_post_structured_ok o url fu sr hc hs] at h
      cases h
      rfl
    | error e =>
      cases hf : o.fallbackGet fu with
      | ok r =>
        obtain ⟨rurl, html⟩ := r
        rw [get_post_generic_ok o url fu e rurl html hc hs hf] at h
        cases h
        rfl
      | error e2 =>
        rw [get_post_both_fail o url fu e e2 hc hs hf] at h
        cases h

/-- The response `oC8` produces. -/
def pC8 : PostOut :=
  { url := "https://f.example/p"
    canonical_url := some "https://h.example/"
    publication := some "h.example"
    html := some "<html><body></body></html>"
    text := some ""
    source := "generic-fetch" }

/-- Witness for the amended C8 at a concrete oracle. -/
theorem C8_hash_characterization_witness :
    (pC8.sha256 =
      match pC8.text with
      | some t => if t = "" then none else some (sha256hex t)
      | none => none) ∧
    sha256hex "Hello" ≠ sha256hex "Goodbye" :=
  C8_hash_characterization oC8 "https://caller.example/p" pC8 rfl

/-! Claim C9. -/

/-- C9: on structured success, canonical_url is the provider-supplied value
when the provider supplies one, and the redirect-resolved input URL when
the provider omits it. -/
theorem C9_canonical_url_choice (o : Oracle) (url fu : String)
    (sr : StructuredResult) (p : PostOut)
    (hc : o.canonGet url = .ok fu) (hs : o.structured fu = .ok sr)
    (h : get_post o url = .ok p) :
    (∀ c : String, sr.md.canonical_url = some c → c ≠ "" →
      p.canonical_url = some c) ∧
    (sr.md.canonical_url = none → p.canonical_url = some fu) := by
  rw [get_post_structured_ok o url fu sr hc hs] at h
  cases h
  constructor
  · intro c hcu hne
    simp [pyOr, hcu, hne]
  · intro hcu
    simp [pyOr, hcu]

/-- An oracle whose provider supplies a canonical URL. -/
def oC9 : Oracle where
  canonGet := fun _ => .ok "https://f.example/p"
  structured := fun _ => .ok { md := { canonical_url := some "https://canon.example/p" } }
  fallbackGet := fun _ => .error "unused"
  parse := fun _ => emptyDoc

/-- The response `oC9` produces. -/
def pC9 : PostOut :=
  { url := "https://f.example/p"
    canonical_url := some "https://canon.example/p"
    source := "substack_api" }

/-- Witness for C9 at a concrete oracle. -/
theorem C9_canonical_url_choice_witness :
    (∀ c : String,
      ({ md := { canonical_url := some "https://canon.example/p" } } :
        StructuredResult).md.canonical_url = some c → c ≠ "" →
      pC9.canonical_url = some c) ∧
    (({ md := { canonical_url := some "https://canon.example/p" } } :
        StructuredResult).md.canonical_url = none →
      pC9.canonical_url = some "https://f.example/p") :=
  C9_canonical_url_choice oC9 "https://caller.example/p" "https://f.example/p"
    { md := { canonical_url := some "https://canon.example/p" } } pC9 rfl rfl rfl

/-! Claim C10. -/

/-- C10: every successful response's url field is the redirect-resolved
final URL from the canonicalization stage, on both paths. -/
theorem C10_url_field (o : Oracle) (url fu : String) (p : PostOut)
    (hc : o.canonGet url = .ok fu) (h : get_post o url = .ok p) :
    p.url = fu := by
  cases hs : o.structured fu with
  | ok sr =>
    rw [get_post_structured_ok o url fu sr hc hs] at h
    cases h
    rfl
  | error e =>
    cases hf : o.fallbackGet fu with
    | ok r =>
      obtain ⟨rurl, html⟩ := r
      rw [get_post_generic_ok o url fu e rurl html hc hs hf] at h
      cases h
      rfl
    | error e2 =>
      rw [get_post_both_fail o url fu e e2 hc hs hf] at h
      cases h

/-- An oracle resolving the caller URL to a different final URL. -/
def oC10 : Oracle where
  canonGet := fun _ => .ok "https://final.example/p"
  structured := fun _ => .ok { md := {} }
  fallbackGet := fun _ => .error "unused"
  parse := fun _ => emptyDoc

/-- The response `oC10` produces. -/
def pC10 : PostOut :=
  { url := "https://final.example/p"
    canonical_url := some "https://final.example/p"
    source := "substack_api" }

/-- Witness for C10 at a concrete oracle whose input URL differs from the
resolved URL. -/
theorem C10_url_field_witness : pC10.url = "https://final.example/p" :=
  C10_url_field oC10 "https://caller.example/p" "https://final.example/p" pC10 rfl rfl

end Substack
